import Mathlib

/-!
Verification of the YahooNews pipeline (src/main.py) against its
natural-language specification.

The development shallowly embeds the pure decision logic of `main.py`:
timestamp parsing (`parse_relative_time`), URL dedup (`load_existing_urls`
and the filtering loop of `update_source_sheet`), the pagination
loop-breaker of `get_article_details`, the detail-fetch / comment-fetch
gate of `update_source_sheet`, and the Gemini classification pass
(`analyze_with_gemini_and_update_sheet`).  Network and HTML extraction are
external collaborators (out of scope per the spec) and enter the model as
oracle parameters; everything the pipeline decides from their results is
embedded faithfully.

Conventions:
* Python `datetime` is modelled by `PyDateTime` (microseconds elided:
  no modelled code path observes them).
* Python exceptions are modelled by `Except PyErr`; a `.error` value means
  the corresponding Python code raises.
* The spreadsheet is modelled as `List (List String)` of data rows (the
  header row is fixed by `check_and_set_headers`, so column positions are
  the indices of `expected_headers`).
* Regex `\d` is modelled as ASCII digits (the only digits the scraped
  Japanese strings carry).
-/

namespace YahooNews

/-- Python exception kinds raised by the modelled code paths. -/
inductive PyErr where
  | valueError
  | overflowError
  | typeError
  deriving Repr, DecidableEq

/-- Model of a Python `datetime` value (microseconds elided). -/
structure PyDateTime where
  year : Int
  month : Nat
  day : Nat
  hour : Nat
  minute : Nat
  second : Nat
  deriving Repr, DecidableEq

/-- Gregorian leap-year test, as Python's `calendar`/`datetime` use. -/
def isLeapYear (y : Int) : Bool :=
  Int.emod y 4 == 0 && (Int.emod y 100 != 0 || Int.emod y 400 == 0)

/-- Number of days in a month, matching Python `datetime` validation. -/
def daysInMonth (y : Int) (m : Nat) : Nat :=
  if m = 2 then (if isLeapYear y then 29 else 28)
  else if m = 4 ∨ m = 6 ∨ m = 9 ∨ m = 11 then 30
  else 31

/-- Validity predicate enforced by the Python `datetime` constructor
(`MINYEAR = 1`, `MAXYEAR = 9999`). -/
def validDateTime (d : PyDateTime) : Bool :=
  decide (1 ≤ d.year ∧ d.year ≤ 9999 ∧ 1 ≤ d.month ∧ d.month ≤ 12 ∧
    1 ≤ d.day ∧ d.day ≤ daysInMonth d.year d.month ∧
    d.hour ≤ 23 ∧ d.minute ≤ 59 ∧ d.second ≤ 59)

/-- Model of Python `datetime.replace(year, month, day, hour, minute,
second=0, microsecond=0)` (every call site of `main.py` fixes all of these
fields, so the receiver only contributes the fields passed in here):
raises `ValueError` when the resulting fields are invalid. -/
def pyReplace (y : Int) (mo dy hr mi : Nat) : Except PyErr PyDateTime :=
  let r : PyDateTime := ⟨y, mo, dy, hr, mi, 0⟩
  if validDateTime r then .ok r else .error .valueError

/-- Days since 1970-01-01 of a civil date (standard civil-calendar
conversion; all divisions are floor divisions, which on the nonnegative
intermediate values here agree with the reference algorithm). -/
def daysFromCivil (y : Int) (m : Int) (d : Int) : Int :=
  let yy := if m ≤ 2 then y - 1 else y
  let era := Int.fdiv yy 400
  let yoe := yy - era * 400
  let mShift := if 2 < m then m - 3 else m + 9
  let doy := Int.fdiv (153 * mShift + 2) 5 + d - 1
  let doe := yoe * 365 + Int.fdiv yoe 4 - Int.fdiv yoe 100 + doy
  era * 146097 + doe - 719468

/-- Inverse of `daysFromCivil` (standard algorithm). -/
def civilFromDays (z0 : Int) : Int × Int × Int :=
  let z := z0 + 719468
  let era := Int.fdiv z 146097
  let doe := z - era * 146097
  let yoe :=
    Int.fdiv (doe - Int.fdiv doe 1460 + Int.fdiv doe 36524 - Int.fdiv doe 146096) 365
  let y := yoe + era * 400
  let doy := doe - (365 * yoe + Int.fdiv yoe 4 - Int.fdiv yoe 100)
  let mp := Int.fdiv (5 * doy + 2) 153
  let d := doy - Int.fdiv (153 * mp + 2) 5 + 1
  let m := if mp < 10 then mp + 3 else mp - 9
  (if m ≤ 2 then y + 1 else y, m, d)

/-- Seconds since the epoch of a `PyDateTime` (negative before 1970). -/
def toSec (d : PyDateTime) : Int :=
  daysFromCivil d.year (d.month : Int) (d.day : Int) * 86400 +
    (d.hour : Int) * 3600 + (d.minute : Int) * 60 + (d.second : Int)

/-- Rebuild a `PyDateTime` from epoch seconds. -/
def ofSec (t : Int) : PyDateTime :=
  let days := Int.fdiv t 86400
  let rem := (Int.fmod t 86400).toNat
  let c := civilFromDays days
  ⟨c.1, c.2.1.toNat, c.2.2.toNat, rem / 3600, rem % 3600 / 60, rem % 60⟩

/-- Epoch seconds of `datetime.min` (0001-01-01 00:00:00). -/
def pyMinSec : Int := toSec ⟨1, 1, 1, 0, 0, 0⟩

/-- Epoch seconds of `datetime.max` (9999-12-31 23:59:59, microseconds
elided). -/
def pyMaxSec : Int := toSec ⟨9999, 12, 31, 23, 59, 59⟩

/-- Model of Python `datetime - timedelta`: raises `OverflowError` when
the result falls outside the representable `datetime` range. -/
def pySub (d : PyDateTime) (deltaSec : Int) : Except PyErr PyDateTime :=
  let t := toSec d - deltaSec
  if t < pyMinSec ∨ pyMaxSec < t then .error .overflowError
  else .ok (ofSec t)

/-- Model of Python `timedelta(...)` construction from a total number of
seconds: raises `OverflowError` when the normalized day count exceeds
999999999. -/
def pyTimedelta (seconds : Nat) : Except PyErr Int :=
  if 999999999 < seconds / 86400 then .error .overflowError
  else .ok (seconds : Int)

/-- Left-pad a number with zeros to the given width. -/
def padNum (n : Nat) (w : Nat) : String :=
  let s := toString n
  String.mk (List.replicate (w - s.length) '0') ++ s

/-- Model of `strftime("%Y/%m/%d %H:%M:%S")`. -/
def strftime_ymdhms (d : PyDateTime) : String :=
  padNum d.year.toNat 4 ++ "/" ++ padNum d.month 2 ++ "/" ++ padNum d.day 2 ++
    " " ++ padNum d.hour 2 ++ ":" ++ padNum d.minute 2 ++ ":" ++
    padNum d.second 2

/-! Regex-style scanners used by `parse_relative_time`.  Each models
`re.search` of one concrete pattern from `main.py`: leftmost match, greedy
quantifiers with backtracking. -/

/-- ASCII digit test (model of regex `\d` on the scraped strings). -/
def isAsciiDigit (c : Char) : Bool := c.isDigit

/-- Numeric value of a list of ASCII digit characters (Python `int`). -/
def digitsVal (l : List Char) : Nat :=
  l.foldl (fun a c => a * 10 + (c.toNat - 48)) 0

/-- Greedy candidate splits for the regex piece matching one or two digit
characters, longest first (backtracking order). -/
def take12 : List Char → List (List Char × List Char)
  | c1 :: c2 :: rest =>
    if isAsciiDigit c1 && isAsciiDigit c2 then
      [([c1, c2], rest), ([c1], c2 :: rest)]
    else if isAsciiDigit c1 then [([c1], c2 :: rest)]
    else []
  | [c1] => if isAsciiDigit c1 then [([c1], [])] else []
  | [] => []

/-- Consume one expected literal character. -/
def expectChar (c : Char) : List Char → Option (List Char)
  | x :: rest => if x = c then some rest else none
  | [] => none

/-- First successful alternative. -/
def firstSome {α : Type} : List (Option α) → Option α
  | [] => none
  | o :: rest =>
    match o with
    | some a => some a
    | none => firstSome rest

/-- Backtracking step for a one-or-two-digit group: try each greedy
candidate in order and feed the remainder to the continuation. -/
def tryDigits12 {α : Type} (cs : List Char) (k : List Char → List Char → Option α) :
    Option α :=
  firstSome ((take12 cs).map (fun p => k p.1 p.2))

/-- Match the time-of-day tail (digits, colon, digits) at the head of the
input. -/
def matchClockAt (cs : List Char) : Option (Nat × Nat) :=
  tryDigits12 cs (fun hh r5 =>
    match expectChar ':' r5 with
    | none => none
    | some r6 => tryDigits12 r6 (fun mm _ => some (digitsVal hh, digitsVal mm)))

/-- Match the bracketed weekday piece: an opening bracket, one character
(regex dot, so not a newline), a closing bracket, a space. -/
def matchWeekdayAt (cs : List Char) : Option (List Char) :=
  match expectChar '(' cs with
  | none => none
  | some r2 =>
    match r2 with
    | [] => none
    | w :: r3 =>
      if w = '\n' then none
      else
        match expectChar ')' r3 with
        | none => none
        | some r4 => expectChar ' ' r4

/-- Match the pattern matching a month/day/time stamp
(digits, slash, digits, one bracketed weekday character, space, digits,
colon, digits) at the head of the input. -/
def matchP1At (cs : List Char) : Option (Nat × Nat × Nat × Nat) :=
  tryDigits12 cs (fun md r0 =>
    match expectChar '/' r0 with
    | none => none
    | some r1 =>
      tryDigits12 r1 (fun dd r2 =>
        match matchWeekdayAt r2 with
        | none => none
        | some r5 =>
          match matchClockAt r5 with
          | none => none
          | some hm => some (digitsVal md, digitsVal dd, hm.1, hm.2)))

/-- Leftmost search for the absolute-stamp pattern. -/
def searchP1 : List Char → Option (Nat × Nat × Nat × Nat)
  | [] => none
  | c :: rest =>
    match matchP1At (c :: rest) with
    | some r => some r
    | none => searchP1 rest

/-- Maximal nonempty digit run at the head of the input. -/
def takeDigits1 (cs : List Char) : Option (List Char × List Char) :=
  let ds := cs.takeWhile isAsciiDigit
  if ds.isEmpty then none else some (ds, cs.drop ds.length)

/-- Match digits followed by a fixed literal at the head of the input. -/
def matchNumLitAt (lit : List Char) (cs : List Char) : Option Nat :=
  match takeDigits1 cs with
  | none => none
  | some (ds, rest) =>
    if lit.isPrefixOf rest then some (digitsVal ds) else none

/-- Leftmost search for digits followed by a fixed literal. -/
def searchNumLit (lit : List Char) : List Char → Option Nat
  | [] => none
  | c :: rest =>
    match matchNumLitAt lit (c :: rest) with
    | some n => some n
    | none => searchNumLit lit rest

/-- Match the hour-colon-minute pattern at the head of the input. -/
def matchHMAt (cs : List Char) : Option (Nat × Nat) :=
  matchClockAt cs

/-- Leftmost search for the hour-colon-minute pattern. -/
def searchHM : List Char → Option (Nat × Nat)
  | [] => none
  | c :: rest =>
    match matchHMAt (c :: rest) with
    | some r => some r
    | none => searchHM rest

/-- Substring containment test (Python `pat in s`). -/
def containsSeq (pat : List Char) : List Char → Bool
  | [] => pat.isPrefixOf []
  | c :: rest => pat.isPrefixOf (c :: rest) || containsSeq pat rest

/-- Literal of the minutes-ago suffix. -/
def minAgoLit : List Char := String.toList "分前"

/-- Literal of the hours-ago suffix. -/
def hourAgoLit : List Char := String.toList "時間前"

/-- Literal of the days-ago suffix. -/
def dayAgoLit : List Char := String.toList "日前"

/-- Literal of the yesterday marker. -/
def yesterdayLit : List Char := String.toList "昨日"

/-- Model of `parse_relative_time(time_str)` from `main.py`.  `now` is the
value of `datetime.now()`.  Returns `.ok (some t)` when a datetime is
produced, `.ok none` when the format is unknown (Python `return None`),
and `.error e` when the Python code raises. -/
def parse_relative_time (now : PyDateTime) (time_str : String) :
    Except PyErr (Option PyDateTime) :=
  let cs := time_str.toList
  match searchP1 cs with
  | some (mo, dy, hr, mi) =>
    match pyReplace now.year mo dy hr mi with
    | .ok t => .ok (some t)
    | .error _ =>
      match pyReplace (now.year - 1) mo dy hr mi with
      | .ok t => .ok (some t)
      | .error e => .error e
  | none =>
  match searchNumLit minAgoLit cs with
  | some m => do
    let s ← pyTimedelta (m * 60)
    let t ← pySub now s
    pure (some t)
  | none =>
  match searchNumLit hourAgoLit cs with
  | some h => do
    let s ← pyTimedelta (h * 3600)
    let t ← pySub now s
    pure (some t)
  | none =>
  if containsSeq yesterdayLit cs then
    match searchHM cs with
    | some (h, mi) => do
      let t ← pySub now 86400
      match pyReplace t.year t.month t.day h mi with
      | .ok r => pure (some r)
      | .error e => .error e
    | none => do
      let t ← pySub now 86400
      pure (some t)
  else
  match searchNumLit dayAgoLit cs with
  | some n => do
    let s ← pyTimedelta (n * 86400)
    let t ← pySub now s
    pure (some t)
  | none => .ok none

/-! Step 1 of `update_source_sheet`: URL dedup and append of new search
results. -/

/-- One search result produced by `get_yahoo_news_search_results`. -/
structure Article where
  title : String
  url : String
  source : String
  post_time_str : String
  keyword : String
  deriving Repr, DecidableEq

/-- Model of `load_existing_urls`: column B of the SOURCE sheet minus the
header row, turned into a Python set (membership structure; duplicates in
the stored column are absorbed). -/
def load_existing_urls (colB : List String) : List String :=
  (colB.drop 1).dedup

/-- The A-F row built for a new article: parsed-and-formatted timestamp
when `parse_relative_time` succeeds, the raw string verbatim when it
returns `None`, and a propagated exception when it raises. -/
def source_row_of (now : PyDateTime) (a : Article) : Except PyErr (List String) :=
  match parse_relative_time now a.post_time_str with
  | .error e => .error e
  | .ok (some t) => .ok [a.keyword, a.url, strftime_ymdhms t, a.source, a.title, "TRUE"]
  | .ok none => .ok [a.keyword, a.url, a.post_time_str, a.source, a.title, "TRUE"]

/-- URL cell of a built or stored row (column B). -/
def rowURL (r : List String) : String := r.getD 1 ""

/-- The filtering loop at the top of `update_source_sheet`: keep articles
whose URL is not in `existing_urls`, adding each kept URL to the set; an
exception from `parse_relative_time` propagates (the loop is outside any
`try`). -/
def filter_new_articles (now : PyDateTime) :
    List Article → List String → Except PyErr (List (List String) × List String)
  | [], s => .ok ([], s)
  | a :: rest, s =>
    if a.url ∈ s then filter_new_articles now rest s
    else
      match source_row_of now a with
      | .error e => .error e
      | .ok row =>
        match filter_new_articles now rest (a.url :: s) with
        | .error e => .error e
        | .ok (rows, s2) => .ok (row :: rows, s2)

/-- The append phase of one whole run of `main`: the URL set is loaded
once and threaded through every keyword batch; `append_rows` for a batch
runs after that batch's filtering loop, so a raised parse error (which the
caller does not catch) appends nothing for that batch and aborts the
remaining batches.  Returns (all appended rows, final set, crashed). -/
def run_append (now : PyDateTime) :
    List (List Article) → List String → List (List String) × List String × Bool
  | [], s => ([], s, false)
  | b :: rest, s =>
    match filter_new_articles now b s with
    | .error _ => ([], s, true)
    | .ok (rows, s1) =>
      let r := run_append now rest s1
      (rows ++ r.1, r.2.1, r.2.2)

/-! The Gemini classification pass (`analyze_article_with_gemini` and
`analyze_with_gemini_and_update_sheet`). -/

/-- Fields of the JSON object the single Gemini call is asked to return. -/
structure AnalysisResult where
  sentiment : String
  category : String
  company_info : String
  nissan_mention : String
  nissan_sentiment : String
  deriving Repr, DecidableEq

/-- The all-"N/A" fallback dictionary of `analyze_article_with_gemini`. -/
def naResult : AnalysisResult := ⟨"N/A", "N/A", "N/A", "N/A", "N/A"⟩

/-- Outcome of one `generate_content` call, as discriminated by the
handlers of `analyze_article_with_gemini`: a response whose extracted JSON
parses to an object (possibly with keys missing), a response with no JSON
object, a response whose JSON fails to parse, a raised `GoogleAPIError`
(this class includes quota exhaustion: `ResourceExhausted` / HTTP 429 is a
`GoogleAPIError`), or any other exception. -/
inductive GeminiReply where
  | json (fields : List (String × String))
  | noJson
  | badJson
  | apiError
  | otherError
  deriving Repr, DecidableEq

/-- Key lookup with the missing-key filler of
`analyze_article_with_gemini` ("N/A (キー欠損)"). -/
def fieldOr (kvs : List (String × String)) (k : String) : String :=
  match kvs.lookup k with
  | some v => v
  | none => "N/A (キー欠損)"

/-- Model of `analyze_article_with_gemini`: truncate the body to 10000
characters, submit once, and map every failure class to the "N/A"
dictionary — in particular a `GoogleAPIError` (quota exhaustion included)
is caught, not retried and not re-raised.  Returns the result together
with the list of texts submitted to the classifier (always exactly one
submission: the function performs no retry). -/
def analyze_article_with_gemini (gemini : String → GeminiReply)
    (article_body : String) : AnalysisResult × List String :=
  let submitted :=
    if 10000 < article_body.length then article_body.take 10000 else article_body
  let res :=
    match gemini submitted with
    | .json kvs =>
      ⟨fieldOr kvs "sentiment", fieldOr kvs "category", fieldOr kvs "company_info",
        fieldOr kvs "nissan_mention", fieldOr kvs "nissan_sentiment"⟩
    | _ => naResult
  (res, [submitted])

/-! Sheet columns are fixed by `expected_headers` in
`check_and_set_headers`; both loops look indices up from that header row. -/

/-- 0-based column of `URL`. -/
def urlCol : Nat := 1

/-- 0-based column of `analysis_flag`. -/
def flagCol : Nat := 5

/-- 0-based column of `body_p1`. -/
def bodyP1Col : Nat := 6

/-- 0-based column of `sentiment`. -/
def sentimentCol : Nat := 16

/-- 0-based column of `company_info`. -/
def companyInfoCol : Nat := 18

/-- 0-based column of `comment_count`. -/
def commentCountCol : Nat := 19

/-- 0-based column of `comment_1`. -/
def comment1Col : Nat := 21

/-- 0-based column of `nissan_mention`. -/
def nissanMentionCol : Nat := 31

/-- Cell access on a sheet row.  The loops of `main.py` guard the row
length before indexing, so the default is never observable there. -/
def cell (row : List String) (i : Nat) : String := row.getD i ""

/-- Python `str.upper()` on the flag strings (character-wise upper-casing;
written over the character list so that it evaluates by kernel
reduction). -/
def pyUpper (s : String) : String := String.mk (s.toList.map Char.toUpper)

/-- Python `str.strip()`: drop whitespace from both ends (written over the
character list so that it evaluates by kernel reduction). -/
def pyStrip (s : String) : String :=
  String.mk (((s.toList.dropWhile Char.isWhitespace).reverse.dropWhile
    Char.isWhitespace).reverse)

/-- The analysis-flag test shared by both loops:
`flag.upper() == "TRUE" or flag == "1"`. -/
def flagIsSet (flag : String) : Bool := pyUpper flag == "TRUE" || flag == "1"

/-- Candidate test of the Gemini loop: row long enough (the
`len(row) <= max(...)` guard with maximum index 16), flag set, and
sentiment empty or the "N/A" marker. -/
def analyzeGate (row : List String) : Bool :=
  decide (16 < row.length) && flagIsSet (cell row flagCol) &&
    (cell row sentimentCol == "" || cell row sentimentCol == "N/A")

/-- The article body the Gemini loop assembles from `body_p1..body_p10`
(`row[6:16]`, dropping empty and "-" cells, joined by spaces). -/
def articleBody (row : List String) : String :=
  String.intercalate " " (((row.drop bodyP1Col).take 10).filter
    (fun t => t != "" && t != "-"))

/-- The placeholder written when the assembled body is shorter than 50
characters (classifier skipped). -/
def shortBodyResult : AnalysisResult := ⟨"N/A (本文短)", "N/A", "N/A", "-", "-"⟩

/-- One range write queued for `ws.batch_update`: 1-based sheet row
(header at row 1), 0-based start column, cell values. -/
structure CellUpdate where
  row : Nat
  colStart : Nat
  values : List String
  deriving Repr, DecidableEq

/-- Result of the Gemini loop: queued updates, analyzed-record count, and
the texts submitted to the classifier in order. -/
structure AnalyzeRes where
  updates : List CellUpdate
  count : Nat
  calls : List String
  deriving Repr, DecidableEq

/-- The per-row loop of `analyze_with_gemini_and_update_sheet`.  `idx` is
the 0-based position in `data_rows` (sheet row `idx + 2`), `count` the
number of records analyzed so far; reaching a candidate with
`count >= 30` breaks the loop.  Each analyzed record queues the
sentiment/category/company_info range and the
nissan_mention/nissan_sentiment range. -/
def analyze_loop (gemini : String → GeminiReply) :
    List (List String) → Nat → Nat → AnalyzeRes
  | [], _, count => ⟨[], count, []⟩
  | row :: rest, idx, count =>
    if analyzeGate row then
      if 30 ≤ count then ⟨[], count, []⟩
      else
        let body := articleBody row
        let rc :=
          if (pyStrip body).length < 50 then (shortBodyResult, ([] : List String))
          else analyze_article_with_gemini gemini body
        let r := analyze_loop gemini rest (idx + 1) (count + 1)
        ⟨⟨idx + 2, sentimentCol, [rc.1.sentiment, rc.1.category, rc.1.company_info]⟩ ::
            ⟨idx + 2, nissanMentionCol, [rc.1.nissan_mention, rc.1.nissan_sentiment]⟩ ::
            r.updates,
          r.count, rc.2 ++ r.calls⟩
    else analyze_loop gemini rest (idx + 1) count

/-- Model of `analyze_with_gemini_and_update_sheet` over the data rows
(`gemini_model` initialized, headers canonical). -/
def analyze_with_gemini_and_update_sheet (gemini : String → GeminiReply)
    (data_rows : List (List String)) : AnalyzeRes :=
  analyze_loop gemini data_rows 0 0

/-- 0-based indices of the rows passing the analysis gate. -/
def analyzeCandidatesFrom : List (List String) → Nat → List Nat
  | [], _ => []
  | row :: rest, idx =>
    if analyzeGate row then idx :: analyzeCandidatesFrom rest (idx + 1)
    else analyzeCandidatesFrom rest (idx + 1)

/-- 0-based indices of the rows passing the analysis gate, from the top. -/
def analyzeCandidates (rows : List (List String)) : List Nat :=
  analyzeCandidatesFrom rows 0

/-- External effects of the analysis pass, in temporal order. -/
inductive Effect where
  | geminiCall (body : String)
  | sheetWrite (us : List CellUpdate)
  deriving Repr, DecidableEq

/-- Store-write discriminator. -/
def isSheetWrite : Effect → Bool
  | .sheetWrite _ => true
  | _ => false

/-- The ordered effect trace of `analyze_with_gemini_and_update_sheet`:
classifier calls happen during the loop; the only store write is the
terminal `ws.batch_update` (absent when nothing was queued). -/
def analyze_trace (gemini : String → GeminiReply)
    (rows : List (List String)) : List Effect :=
  let r := analyze_with_gemini_and_update_sheet gemini rows
  r.calls.map Effect.geminiCall ++
    (if r.updates.isEmpty then [] else [Effect.sheetWrite r.updates])

/-- Pad a row with empty cells to the given length. -/
def padTo (r : List String) (n : Nat) : List String :=
  r ++ List.replicate (n - r.length) ""

/-- Write one cell, extending the row when needed (a range write into a
sheet extends short rows). -/
def setCell (r : List String) (i : Nat) (v : String) : List String :=
  (padTo r (i + 1)).set i v

/-- Write consecutive cells starting at a column. -/
def writeCells : List String → Nat → List String → List String
  | r, _, [] => r
  | r, c, v :: vs => writeCells (setCell r c v) (c + 1) vs

/-- Apply one queued range write to the data rows (`u.row` is the 1-based
sheet row, so data index `u.row - 2`). -/
def applyUpdate (rows : List (List String)) (u : CellUpdate) : List (List String) :=
  match rows.get? (u.row - 2) with
  | none => rows
  | some r => rows.set (u.row - 2) (writeCells r u.colStart u.values)

/-- Apply a queued batch in order. -/
def applyUpdates (rows : List (List String)) (us : List CellUpdate) :
    List (List String) :=
  us.foldl applyUpdate rows

/-- Store contents after a prefix of the effect trace. -/
def applyEffects (rows : List (List String)) (es : List Effect) :
    List (List String) :=
  es.foldl (fun s e =>
    match e with
    | .sheetWrite us => applyUpdates s us
    | _ => s) rows

/-! `get_article_details`: body pagination with loop-breaker, and the
detail-fetch loop of `update_source_sheet` (step 3). -/

/-- The body-unavailable sentinel written when a page yields no article
body ("（本文取得失敗）"). -/
def BODY_FAIL : String := "（本文取得失敗）"

/-- What fetching page `n` (for `n ≥ 2`) of an article resolves to, as
discriminated by the pagination loop: non-200 status, a 200 page without
the `article_body` container, a container with extracted text, or a
raised request/processing exception. -/
inductive PageResult where
  | notOk
  | noContainer
  | content (text : String)
  | exn
  deriving Repr, DecidableEq

/-- The page-2..10 loop of `get_article_details`: stop on non-200, on a
missing body container, on an exception, or when the extracted text block
equals page 1's block (`article_body_parts[0]`); otherwise append the text
and continue.  First argument of the auxiliary is the remaining page
budget. -/
def pages_loop_from (p1 : String) (pages : Nat → PageResult) :
    Nat → Nat → List String
  | 0, _ => []
  | fuel + 1, n =>
    match pages n with
    | .content t =>
      if t = p1 then [] else t :: pages_loop_from p1 pages fuel (n + 1)
    | _ => []

/-- The page texts appended after page 1 (`for page_num in range(2, 11)`). -/
def pages_loop (p1 : String) (pages : Nat → PageResult) : List String :=
  pages_loop_from p1 pages 9 2

/-- Everything page 1 of an article resolves to: a raised request or
processing exception around the whole fetch, or a page with an optional
body container text, the comment-count string (default "0"), and the
optional parsed `datetime` of the `time` tag. -/
inductive FetchOutcome where
  | fatal
  | ok (p1 : Option String) (pages : Nat → PageResult) (commentCount : String)
      (postTime : Option PyDateTime)

/-- Model of `get_article_details`: on a fatal exception return ten
sentinels, comment count "0" and no time; otherwise take page 1's text (or
the sentinel when the container is missing), run the pagination loop, pad
with "-" to ten parts and truncate to ten. -/
def get_article_details : FetchOutcome → List String × String × Option PyDateTime
  | .fatal => (List.replicate 10 BODY_FAIL, "0", none)
  | .ok p1 pages cc ts =>
    let first :=
      match p1 with
      | some t => t
      | none => BODY_FAIL
    let parts := first :: pages_loop first pages
    ((parts ++ List.replicate (10 - parts.length) "-").take 10, cc, ts)

/-- Model of the result shaping of `get_yahoo_news_comments`: the scraped
comments (the pagination caps collection at ten), "取得不可" ten times when
none were found, otherwise padding with "-" to ten. -/
def get_yahoo_news_comments (scraped : List String) : List String :=
  let cd := scraped.take 10
  if cd.isEmpty then List.replicate 10 "取得不可"
  else (cd ++ List.replicate (10 - cd.length) "-").take 10

/-- Lower-case-hex-or-digit test (regex class `[a-f0-9]`). -/
def isHexLower (c : Char) : Bool :=
  c.isDigit || (decide ('a' ≤ c) && decide (c ≤ 'f'))

/-- Leftmost search for the article-id pattern: the literal
"/articles/" followed by at least one `[a-f0-9]` character (greedy run). -/
def extract_article_id (cs : List Char) : Option (List Char) :=
  match cs with
  | [] => none
  | c :: rest =>
    let lit := String.toList "/articles/"
    if lit.isPrefixOf (c :: rest) then
      let tail := (c :: rest).drop lit.length
      let ds := tail.takeWhile isHexLower
      if ds.isEmpty then extract_article_id rest else some ds
    else extract_article_id rest

/-- The detail-fetch gate of step 3 of `update_source_sheet`: row long
enough (`len(row) <= max(flag, body_p1, url) = 6` guard), flag set, and
`body_p1` empty or the fetch-failure sentinel. -/
def detailGate (row : List String) : Bool :=
  decide (6 < row.length) && flagIsSet (cell row flagCol) &&
    (cell row bodyP1Col == "" || cell row bodyP1Col == BODY_FAIL)

/-- Result of the detail-fetch loop: the rows fetched (sheet row, URL) by
`get_article_details` and by `get_yahoo_news_comments`, the queued G..AC
range writes, and whether the loop aborted on the `astimezone(timedelta)`
`TypeError` (raised whenever a processed row's detail page yielded a
parsed timestamp; the surrounding `try` then skips the terminal
`batch_update`). -/
structure DetailRes where
  detailFetches : List (Nat × String)
  commentFetches : List (Nat × String)
  batch : List CellUpdate
  aborted : Bool
  deriving Repr, DecidableEq

/-- The per-row loop of step 3 of `update_source_sheet`.  `details` and
`comments` are the network oracles (everything the scraping of one URL
resolves to).  A row is processed when the gate holds and an article id is
extractable from its URL; the G.. range write holds the ten body parts,
the comment count, the timestamp cell and the ten comment cells.  When the
detail result carries a parsed timestamp, the JST conversion
`full_post_time.astimezone(timedelta(hours=9))` raises `TypeError`, which
the enclosing `try` catches: the loop stops and nothing is committed. -/
def detail_loop (details : String → FetchOutcome) (comments : String → List String) :
    List (List String) → Nat → DetailRes
  | [], _ => ⟨[], [], [], false⟩
  | row :: rest, idx =>
    if detailGate row then
      match extract_article_id (cell row urlCol).toList with
      | none => detail_loop details comments rest (idx + 1)
      | some _ =>
        let url := cell row urlCol
        let d := get_article_details (details url)
        let cs := get_yahoo_news_comments (comments url)
        match d.2.2 with
        | some _ => ⟨[(idx + 2, url)], [(idx + 2, url)], [], true⟩
        | none =>
          let vals := d.1 ++ [d.2.1] ++ ["-"] ++ cs
          let r := detail_loop details comments rest (idx + 1)
          ⟨(idx + 2, url) :: r.detailFetches, (idx + 2, url) :: r.commentFetches,
            ⟨idx + 2, bodyP1Col, vals⟩ :: r.batch, r.aborted⟩
    else detail_loop details comments rest (idx + 1)

/-- Model of step 3 of `update_source_sheet` over the data rows. -/
def update_source_sheet_details (details : String → FetchOutcome)
    (comments : String → List String) (data_rows : List (List String)) : DetailRes :=
  detail_loop details comments data_rows 0

/-- What step 3 actually commits: the whole batch in one terminal
`batch_update`, and nothing at all when the loop aborted. -/
def detail_committed (r : DetailRes) : List CellUpdate :=
  if r.aborted then [] else r.batch

/-! StageGate rules as the spec words them (for comparison with the code's
gates). -/

/-- Modelled from the spec (§4.2 StageGate): `detailFetch` pending iff
`body` is empty OR (`body` is filled/unavailable AND `postedAt` resolves
to within the trailing 3-day window). -/
def spec_detailFetch_pending (now : PyDateTime) (body : String)
    (postedAt : Option PyDateTime) : Bool :=
  body == "" ||
    (match postedAt with
     | some t => decide (0 ≤ toSec now - toSec t) && decide (toSec now - toSec t ≤ 3 * 86400)
     | none => false)

/-- Modelled from the spec (§4.2 StageGate): `deepCommentCollect` pending
iff the record is not yet in CommentBundle AND (`commentCount` exceeds a
threshold OR (`companyInfo` matches the tracked entity AND `sentiment` is
negative)).  The spec leaves the threshold symbolic; its scenarios pin it
to the interval (5, 150], and 100 is used here. -/
def spec_deepCommentCollect_pending (inBundle : Bool) (commentCount : Nat)
    (companyInfo sentiment : String) : Bool :=
  !inBundle && (decide (100 < commentCount) ||
    (companyInfo == "日産" && sentiment == "ネガティブ"))

/-! Theorems. -/

/-- Helper: no text block appended by the pagination loop equals page 1's
block. -/
theorem pages_loop_from_ne_first (p1 : String) (pages : Nat → PageResult) :
    ∀ fuel n, ∀ t ∈ pages_loop_from p1 pages fuel n, t ≠ p1 := by
  intro fuel
  induction fuel with
  | zero => intro n t ht; simp [pages_loop_from] at ht
  | succ k ih =>
    intro n t ht
    simp only [pages_loop_from] at ht
    cases hp : pages n with
    | content s =>
      rw [hp] at ht
      by_cases hs : s = p1
      · simp [hs] at ht
      · simp only [if_neg hs, List.mem_cons] at ht
        rcases ht with h | h
        · rw [h]; exact hs
        · exact ih (n + 1) t h
    | notOk => rw [hp] at ht; simp at ht
    | noContainer => rw [hp] at ht; simp at ht
    | exn => rw [hp] at ht; simp at ht

/-- C5: during body pagination, a page (after the first) whose extracted
text equals page 1's stops the walk and its text never enters the
assembled body: (1) for every page sequence, no appended block equals page
1's block; (2) in particular, when page 3's text equals page 1's and page
2's differs, the loop output is exactly page 2's text — the walk stopped
after page 2 and page 3's text is absent. -/
theorem C5_pagination_loop_breaker :
    (∀ (p1 : String) (pages : Nat → PageResult), ∀ t ∈ pages_loop p1 pages, t ≠ p1) ∧
    (∀ (p1 t2 : String), t2 ≠ p1 →
      pages_loop p1
        (fun n => if n = 3 then PageResult.content p1 else PageResult.content t2) =
        [t2]) := by
  constructor
  · intro p1 pages t ht
    exact pages_loop_from_ne_first p1 pages 9 2 t ht
  · intro p1 t2 h
    simp [pages_loop, pages_loop_from, h]

/-- Witness for C5 at a concrete page sequence. -/
theorem C5_pagination_loop_breaker_witness :
    ("ページ2本文" : String) ≠ "ページ1本文" ∧
    pages_loop "ページ1本文"
      (fun n => if n = 3 then PageResult.content "ページ1本文"
       else PageResult.content "ページ2本文") = ["ページ2本文"] := by
  refine ⟨by decide, ?_⟩
  exact C5_pagination_loop_breaker.2 "ページ1本文" "ページ2本文" (by decide)

/-- C9 (code bug): the date parser is not total.  On "2/30(月) 10:00" the
first `replace` raises `ValueError`, and the `except ValueError` fallback
(`year - 1`) raises `ValueError` again, uncaught — the pipeline crashes
instead of storing the string verbatim.  Ordinary inputs behave as the
spec says: a relative form parses, and an unknown form yields `None`
(stored verbatim by the caller). -/
theorem C9_parse_relative_time_raises :
    parse_relative_time ⟨2026, 10, 12, 9, 30, 0⟩ "2/30(月) 10:00" =
      .error .valueError ∧
    parse_relative_time ⟨2026, 10, 12, 9, 30, 0⟩ "5分前" =
      .ok (some ⟨2026, 10, 12, 9, 25, 0⟩) ∧
    parse_relative_time ⟨2026, 10, 12, 9, 30, 0⟩ "時間不明" = .ok none :=
  ⟨rfl, rfl, rfl⟩

/-- Helper: the analyzed-record count of the Gemini loop is the candidate
count clipped at the cap of 30. -/
theorem analyze_loop_count (g : String → GeminiReply) :
    ∀ (rows : List (List String)) (idx count : Nat), count ≤ 30 →
      (analyze_loop g rows idx count).count =
        min (count + (analyzeCandidatesFrom rows idx).length) 30 := by
  intro rows
  induction rows with
  | nil =>
    intro idx count h
    simp [analyze_loop, analyzeCandidatesFrom, Nat.min_eq_left h]
  | cons row rest ih =>
    intro idx count h
    simp only [analyze_loop, analyzeCandidatesFrom]
    by_cases hg : analyzeGate row
    · simp only [if_pos hg]
      by_cases hc : 30 ≤ count
      · have hce : count = 30 := le_antisymm h hc
        subst hce
        simp only [if_pos (le_refl 30), List.length_cons]
        omega
      · simp only [if_neg hc]
        have h1 : count + 1 ≤ 30 := by omega
        have := ih (idx + 1) (count + 1) h1
        simp only [List.length_cons]
        rw [this]
        omega
    · simp only [if_neg hg]
      exact ih (idx + 1) count h

/-- Helper: the sheet rows targeted by the queued updates are exactly the
first (30 - count) candidate rows, twice each (two ranges per record). -/
theorem analyze_loop_update_rows (g : String → GeminiReply) :
    ∀ (rows : List (List String)) (idx count : Nat), count ≤ 30 →
      (analyze_loop g rows idx count).updates.map CellUpdate.row =
        ((analyzeCandidatesFrom rows idx).take (30 - count)).flatMap
          (fun i => [i + 2, i + 2]) := by
  intro rows
  induction rows with
  | nil => intro idx count h; simp [analyze_loop, analyzeCandidatesFrom]
  | cons row rest ih =>
    intro idx count h
    simp only [analyze_loop, analyzeCandidatesFrom]
    by_cases hg : analyzeGate row
    · simp only [if_pos hg]
      by_cases hc : 30 ≤ count
      · have hce : count = 30 := le_antisymm h hc
        subst hce
        simp
      · simp only [if_neg hc]
        have h1 : count + 1 ≤ 30 := by omega
        have hrec := ih (idx + 1) (count + 1) h1
        have htk : 30 - count = (30 - (count + 1)) + 1 := by omega
        rw [htk]
        simp only [List.take_succ_cons, List.flatMap_cons, List.map_cons]
        rw [hrec]
        rfl
    · simp only [if_neg hg]
      exact ih (idx + 1) count h

/-- Helper: at most one classifier call is made per analyzed record. -/
theorem analyze_loop_calls_le (g : String → GeminiReply) :
    ∀ (rows : List (List String)) (idx count : Nat),
      (analyze_loop g rows idx count).calls.length + count ≤
        (analyze_loop g rows idx count).count := by
  intro rows
  induction rows with
  | nil => intro idx count; simp [analyze_loop]
  | cons row rest ih =>
    intro idx count
    simp only [analyze_loop]
    by_cases hg : analyzeGate row
    · simp only [if_pos hg]
      by_cases hc : 30 ≤ count
      · simp [if_pos hc]
      · simp only [if_neg hc]
        have := ih (idx + 1) (count + 1)
        by_cases hb : (pyStrip (articleBody row)).length < 50
        · simp only [if_pos hb, List.nil_append]
          omega
        · simp only [if_neg hb, analyze_article_with_gemini, List.length_append,
            List.length_singleton]
          omega
    · simp only [if_neg hg]
      exact ih (idx + 1) count

/-- Helper: how many classifier calls happen does not depend on what the
classifier answers. -/
theorem analyze_loop_calls_oracle_free (g g' : String → GeminiReply) :
    ∀ (rows : List (List String)) (idx count : Nat),
      (analyze_loop g rows idx count).calls.length =
        (analyze_loop g' rows idx count).calls.length := by
  intro rows
  induction rows with
  | nil => intro idx count; rfl
  | cons row rest ih =>
    intro idx count
    simp only [analyze_loop]
    by_cases hg : analyzeGate row
    · simp only [if_pos hg]
      by_cases hc : 30 ≤ count
      · simp [if_pos hc]
      · simp only [if_neg hc]
        by_cases hb : (pyStrip (articleBody row)).length < 50
        · simp only [if_pos hb, List.nil_append]
          exact ih (idx + 1) (count + 1)
        · simp only [if_neg hb, analyze_article_with_gemini, List.length_append,
            List.length_singleton]
          rw [ih (idx + 1) (count + 1)]
    · simp only [if_neg hg]
      exact ih (idx + 1) count

/-- Helper: a range write leaves every other sheet row unchanged. -/
theorem applyUpdate_get_ne (rows : List (List String)) (u : CellUpdate) (i : Nat)
    (h : u.row - 2 ≠ i) : (applyUpdate rows u).get? i = rows.get? i := by
  unfold applyUpdate
  cases hr : rows.get? (u.row - 2) with
  | none => rfl
  | some r =>
    simp only [List.get?_eq_getElem?] at *
    exact List.getElem?_set_ne h

/-- Helper: a batch targeting other rows leaves a sheet row unchanged. -/
theorem applyUpdates_get_ne :
    ∀ (us : List CellUpdate) (rows : List (List String)) (i : Nat),
      (∀ u ∈ us, u.row - 2 ≠ i) →
      (applyUpdates rows us).get? i = rows.get? i := by
  intro us
  induction us with
  | nil => intro rows i _; rfl
  | cons u rest ih =>
    intro rows i h
    have hstep : applyUpdates rows (u :: rest) = applyUpdates (applyUpdate rows u) rest := rfl
    rw [hstep, ih (applyUpdate rows u) i (fun v hv => h v (List.mem_cons_of_mem _ hv))]
    exact applyUpdate_get_ne rows u i (h u (List.mem_cons_self u rest))

/-- C10: one run analyzes at most 30 records — the analyzed count is the
candidate count clipped at 30, the queued writes target exactly the first
30 candidate rows (two ranges each), at most 30 classifier calls are made,
and every row outside the first 30 candidates is untouched by the final
batch write, while the analyzed records' results are in it. -/
theorem C10_analysis_cap (g : String → GeminiReply) (rows : List (List String)) :
    (analyze_with_gemini_and_update_sheet g rows).count =
      min (analyzeCandidates rows).length 30 ∧
    (analyze_with_gemini_and_update_sheet g rows).updates.map CellUpdate.row =
      ((analyzeCandidates rows).take 30).flatMap (fun i => [i + 2, i + 2]) ∧
    (analyze_with_gemini_and_update_sheet g rows).calls.length ≤ 30 ∧
    (∀ i, i ∉ (analyzeCandidates rows).take 30 →
      (applyUpdates rows (analyze_with_gemini_and_update_sheet g rows).updates).get? i =
        rows.get? i) := by
  have hcount := analyze_loop_count g rows 0 0 (by omega)
  have hupd := analyze_loop_update_rows g rows 0 0 (by omega)
  have hcalls := analyze_loop_calls_le g rows 0 0
  refine ⟨by simpa using hcount, by simpa using hupd, ?_, ?_⟩
  · have h30 : (analyze_loop g rows 0 0).count ≤ 30 := by
      rw [hcount]; omega
    simpa using le_trans (by simpa using hcalls) h30
  · intro i hi
    apply applyUpdates_get_ne
    intro u hu
    have hmem : u.row ∈ (analyze_with_gemini_and_update_sheet g rows).updates.map
        CellUpdate.row := List.mem_map_of_mem CellUpdate.row hu
    rw [show (analyze_with_gemini_and_update_sheet g rows).updates.map CellUpdate.row =
        ((analyzeCandidates rows).take 30).flatMap (fun i => [i + 2, i + 2]) by
      simpa using hupd] at hmem
    rcases List.mem_flatMap.mp hmem with ⟨j, hj, hju⟩
    simp only [List.mem_cons, List.not_mem_nil, or_false] at hju
    have : u.row = j + 2 := by
      rcases hju with h | h <;> exact h
    intro hcontra
    apply hi
    rw [← hcontra, this]
    simpa using hj

/-- Witness for C10 at a concrete run: one candidate row and one
non-candidate row, checked at untouched index 1. -/
theorem C10_analysis_cap_witness :
    (applyUpdates [["kw", "u", "t", "s", "ttl", "TRUE",
        "縮退しない長い本文縮退しない長い本文縮退しない長い本文縮退しない長い本文縮退しない長い本文縮退しない長い本文", "", "", "", "", "", "", "", "", "", ""],
       ["kw", "u", "t", "s", "ttl", "FALSE", "", "", "", "", "", "", "", "", "", "", ""]]
      (analyze_with_gemini_and_update_sheet (fun _ => GeminiReply.apiError)
        [["kw", "u", "t", "s", "ttl", "TRUE",
          "縮退しない長い本文縮退しない長い本文縮退しない長い本文縮退しない長い本文縮退しない長い本文縮退しない長い本文", "", "", "", "", "", "", "", "", "", ""],
         ["kw", "u", "t", "s", "ttl", "FALSE", "", "", "", "", "", "", "", "", "", "", ""]]).updates).get? 1 =
      ([["kw", "u", "t", "s", "ttl", "TRUE",
        "縮退しない長い本文縮退しない長い本文縮退しない長い本文縮退しない長い本文縮退しない長い本文縮退しない長い本文", "", "", "", "", "", "", "", "", "", ""],
       ["kw", "u", "t", "s", "ttl", "FALSE", "", "", "", "", "", "", "", "", "", "", ""]] :
        List (List String)).get? 1 :=
  (C10_analysis_cap (fun _ => GeminiReply.apiError) _).2.2.2 1 (by decide)

/-! Concrete fixtures for the classification-pass claims. -/

/-- A 60-character body text. -/
def bodyA : String := String.mk (List.replicate 60 'あ')

/-- Another 60-character body text. -/
def bodyB : String := String.mk (List.replicate 60 'い')

/-- A data row with the given `body_p1`, flag TRUE, sentiment empty
(length 17, matching the sheet layout). -/
def mkRow (body : String) : List String :=
  ["kw", "https://news.yahoo.co.jp/articles/aa11", "t", "src", "ttl", "TRUE", body] ++
    List.replicate 10 ""

/-- A well-formed classifier reply naming another company. -/
def toyotaReply : GeminiReply :=
  .json [("sentiment", "ポジティブ"), ("category", "企業"), ("company_info", "トヨタ"),
    ("nissan_mention", "-"), ("nissan_sentiment", "-")]

/-- Classifier oracle raising quota exhaustion (a `GoogleAPIError`) on the
first record's body and succeeding afterwards. -/
def quotaThenOk : String → GeminiReply :=
  fun b => if b = bodyA then .apiError else toyotaReply

/-- C2 counterexample: with quota exhaustion raised on record 1 of 2, the
run does not abort — the classifier is called again for record 2 (its
body appears in the call list after record 1's), record 1 is absorbed as
the per-record "N/A" result, and record 2's results are queued normally.
This falsifies "aborts immediately without retrying that call or
processing further records … quota exhaustion is never absorbed as a
per-record recoverable error". -/
theorem C2_quota_not_fail_fast :
    (analyze_with_gemini_and_update_sheet quotaThenOk [mkRow bodyA, mkRow bodyB]).calls =
      [bodyA, bodyB] ∧
    (analyze_with_gemini_and_update_sheet quotaThenOk [mkRow bodyA, mkRow bodyB]).updates =
      [⟨2, sentimentCol, ["N/A", "N/A", "N/A"]⟩,
       ⟨2, nissanMentionCol, ["N/A", "N/A"]⟩,
       ⟨3, sentimentCol, ["ポジティブ", "企業", "トヨタ"]⟩,
       ⟨3, nissanMentionCol, ["-", "-"]⟩] := by
  constructor
  · decide
  · decide

/-- C2 (amended): a quota-exhaustion failure is caught inside the
per-record call as a `GoogleAPIError` and converted to the "N/A" result;
the call is not retried (exactly one submission per call), and the run
continues over exactly the same records with exactly the same write
layout and call count as on success — classifier outcomes do not influence
control flow. -/
theorem C2_amended_quota_absorbed :
    (∀ (g : String → GeminiReply) (body : String),
        g (if 10000 < body.length then body.take 10000 else body) = .apiError →
        (analyze_article_with_gemini g body).1 = naResult ∧
          (analyze_article_with_gemini g body).2.length = 1) ∧
    (∀ (g g' : String → GeminiReply) (rows : List (List String)),
        (analyze_with_gemini_and_update_sheet g rows).count =
          (analyze_with_gemini_and_update_sheet g' rows).count ∧
        (analyze_with_gemini_and_update_sheet g rows).updates.map CellUpdate.row =
          (analyze_with_gemini_and_update_sheet g' rows).updates.map CellUpdate.row ∧
        (analyze_with_gemini_and_update_sheet g rows).calls.length =
          (analyze_with_gemini_and_update_sheet g' rows).calls.length) := by
  constructor
  · intro g body h
    constructor
    · simp only [analyze_article_with_gemini, h]
    · rfl
  · intro g g' rows
    refine ⟨?_, ?_, ?_⟩
    · rw [show analyze_with_gemini_and_update_sheet g rows = analyze_loop g rows 0 0 from rfl,
        show analyze_with_gemini_and_update_sheet g' rows = analyze_loop g' rows 0 0 from rfl,
        analyze_loop_count g rows 0 0 (by omega),
        analyze_loop_count g' rows 0 0 (by omega)]
    · rw [show analyze_with_gemini_and_update_sheet g rows = analyze_loop g rows 0 0 from rfl,
        show analyze_with_gemini_and_update_sheet g' rows = analyze_loop g' rows 0 0 from rfl,
        analyze_loop_update_rows g rows 0 0 (by omega),
        analyze_loop_update_rows g' rows 0 0 (by omega)]
    · exact analyze_loop_calls_oracle_free g g' rows 0 0

/-- Witness for C2 (amended) at a concrete quota failure. -/
theorem C2_amended_quota_absorbed_witness :
    (analyze_article_with_gemini (fun _ => GeminiReply.apiError) bodyA).1 = naResult :=
  (C2_amended_quota_absorbed.1 (fun _ => GeminiReply.apiError) bodyA rfl).1

/-- All-success classifier oracle. -/
def okOracle : String → GeminiReply := fun _ => toyotaReply

/-- C3 counterexample: results are batched, not written per record.  With
two records both classified successfully, the effect trace is two
classifier calls followed by one terminal batch write; at the point where
both records have completed (the trace prefix before the terminal write)
the store still holds its initial contents — record 1's sentiment cell is
still empty even though record 1 finished long ago, so an abort there
loses every completed record, contradicting the claimed per-record
durability. -/
theorem C3_no_immediate_write :
    (analyze_trace okOracle [mkRow bodyA, mkRow bodyB]).take 2 =
      [Effect.geminiCall bodyA, Effect.geminiCall bodyB] ∧
    applyEffects [mkRow bodyA, mkRow bodyB]
      ((analyze_trace okOracle [mkRow bodyA, mkRow bodyB]).take 2) =
      [mkRow bodyA, mkRow bodyB] ∧
    cell (([mkRow bodyA, mkRow bodyB] : List (List String)).getD 0 []) sentimentCol = "" ∧
    cell ((applyEffects [mkRow bodyA, mkRow bodyB]
      (analyze_trace okOracle [mkRow bodyA, mkRow bodyB])).getD 0 []) sentimentCol =
      "ポジティブ" := by
  refine ⟨by decide, by decide, by decide, by decide⟩

/-- Helper: effects that are not store writes leave the store unchanged. -/
theorem applyEffects_no_write :
    ∀ (es : List Effect) (rows : List (List String)),
      (∀ e ∈ es, isSheetWrite e = false) → applyEffects rows es = rows := by
  intro es
  induction es with
  | nil => intro rows _; rfl
  | cons e rest ih =>
    intro rows h
    cases e with
    | geminiCall b =>
      have hstep : applyEffects rows (Effect.geminiCall b :: rest) =
          applyEffects rows rest := rfl
      rw [hstep]
      exact ih rows (fun x hx => h x (List.mem_cons_of_mem _ hx))
    | sheetWrite us =>
      have := h (Effect.sheetWrite us) (List.mem_cons_self _ _)
      simp [isSheetWrite] at this

/-- C3 (amended): stage outputs are accumulated in memory and committed in
a single batch write at the end of the classification pass; before that
terminal write nothing reaches the store (an abort mid-pass loses every
record of the pass), and the terminal write applies all queued results at
once. -/
theorem C3_amended_terminal_batch (g : String → GeminiReply)
    (rows : List (List String)) :
    (∀ e ∈ (analyze_trace g rows).dropLast, isSheetWrite e = false) ∧
    applyEffects rows ((analyze_trace g rows).dropLast) = rows ∧
    applyEffects rows (analyze_trace g rows) =
      applyUpdates rows (analyze_with_gemini_and_update_sheet g rows).updates := by
  have hcalls : ∀ e ∈ (analyze_with_gemini_and_update_sheet g rows).calls.map
      Effect.geminiCall, isSheetWrite e = false := by
    intro e he
    rcases List.mem_map.mp he with ⟨b, _, hb⟩
    rw [← hb]
    rfl
  by_cases hemp : (analyze_with_gemini_and_update_sheet g rows).updates.isEmpty
  · have htr : analyze_trace g rows =
        (analyze_with_gemini_and_update_sheet g rows).calls.map Effect.geminiCall := by
      simp [analyze_trace, hemp]
    have hupd : (analyze_with_gemini_and_update_sheet g rows).updates = [] :=
      List.isEmpty_iff.mp hemp
    refine ⟨?_, ?_, ?_⟩
    · intro e he
      exact hcalls e ((List.dropLast_sublist _).subset (htr ▸ he))
    · apply applyEffects_no_write
      intro e he
      exact hcalls e ((List.dropLast_sublist _).subset (htr ▸ he))
    · rw [htr, hupd, applyEffects_no_write _ _ hcalls]
      rfl
  · have htr : analyze_trace g rows =
        (analyze_with_gemini_and_update_sheet g rows).calls.map Effect.geminiCall ++
          [Effect.sheetWrite (analyze_with_gemini_and_update_sheet g rows).updates] := by
      simp [analyze_trace, hemp]
    refine ⟨?_, ?_, ?_⟩
    · intro e he
      rw [htr, List.dropLast_concat] at he
      exact hcalls e he
    · rw [htr, List.dropLast_concat]
      exact applyEffects_no_write _ _ hcalls
    · rw [htr]
      have hsplit : applyEffects rows
          ((analyze_with_gemini_and_update_sheet g rows).calls.map Effect.geminiCall ++
            [Effect.sheetWrite (analyze_with_gemini_and_update_sheet g rows).updates]) =
          applyEffects
            (applyEffects rows
              ((analyze_with_gemini_and_update_sheet g rows).calls.map Effect.geminiCall))
            [Effect.sheetWrite (analyze_with_gemini_and_update_sheet g rows).updates] :=
        List.foldl_append _ _ _ _
      rw [hsplit, applyEffects_no_write _ _ hcalls]
      rfl

/-- Witness for C3 (amended) at a concrete run. -/
theorem C3_amended_terminal_batch_witness :
    applyEffects [mkRow bodyA] ((analyze_trace okOracle [mkRow bodyA]).dropLast) =
      [mkRow bodyA] :=
  (C3_amended_terminal_batch okOracle [mkRow bodyA]).2.1

/-- The row `update_source_sheet` stores when `get_article_details` hits a
fatal request failure: all ten body cells hold the sentinel. -/
def sentinelRow : List String :=
  ["kw", "https://news.yahoo.co.jp/articles/ab12", "t", "src", "ttl", "TRUE"] ++
    List.replicate 10 BODY_FAIL ++ [""]

/-- The row stored when only page 1 lacked a body container: `body_p1`
holds the sentinel and the other body cells hold "-". -/
def p1OnlyFailRow : List String :=
  ["kw", "https://news.yahoo.co.jp/articles/ab12", "t", "src", "ttl", "TRUE", BODY_FAIL] ++
    List.replicate 9 "-" ++ [""]

/-- A classifier reply identifying the tracked entity. -/
def nissanReply : GeminiReply :=
  .json [("sentiment", "ネガティブ"), ("category", "企業"), ("company_info", "日産"),
    ("nissan_mention", "-"), ("nissan_sentiment", "-")]

/-- C7 (code bug): when a record's body resolved to the unavailable
sentinel via the fatal-fetch path, the classifier IS invoked.
`get_article_details` writes the sentinel into all ten body cells on a
request failure; the classification loop then joins the ten copies into an
89-character text, which defeats the 50-character no-content guard, and
submits it to Gemini — consuming quota, contrary to the claim.  The guard
itself works in the one-sentinel shape (page-1 container missing): there
the assembled body is the 8-character sentinel, no call is made, and the
fields get the fixed markers. -/
theorem C7_sentinel_body_calls_classifier :
    get_article_details .fatal = (List.replicate 10 BODY_FAIL, "0", none) ∧
    (get_article_details (.ok none (fun _ => .notOk) "0" none)).1 =
      BODY_FAIL :: List.replicate 9 "-" ∧
    (pyStrip (articleBody sentinelRow)).length = 89 ∧
    (analyze_with_gemini_and_update_sheet (fun _ => nissanReply) [sentinelRow]).calls.length = 1 ∧
    (analyze_with_gemini_and_update_sheet (fun _ => nissanReply) [p1OnlyFailRow]).calls = [] ∧
    (analyze_with_gemini_and_update_sheet (fun _ => nissanReply) [p1OnlyFailRow]).updates =
      [⟨2, sentimentCol, ["N/A (本文短)", "N/A", "N/A"]⟩,
       ⟨2, nissanMentionCol, ["-", "-"]⟩] := by
  refine ⟨rfl, rfl, by decide, by decide, by decide, by decide⟩

/-- A classifier reply that names the tracked entity as the subject AND
fills the secondary fields with non-marker values. -/
def nissanMentionReply : GeminiReply :=
  .json [("sentiment", "ネガティブ"), ("category", "企業"), ("company_info", "日産"),
    ("nissan_mention", "あり"), ("nissan_sentiment", "ネガティブ")]

/-- C8 counterexample: nothing in the code forces the secondary fields to
the "-" marker when `company_info` is the tracked entity — the loop copies
the reply's `nissan_mention`/`nissan_sentiment` verbatim into the store.
With a reply whose `company_info` is 日産 but whose secondary fields are
"あり"/"ネガティブ", the stored cells are those values, not the
"not applicable" marker. -/
theorem C8_secondary_not_enforced :
    cell ((applyUpdates [mkRow bodyA]
        (analyze_with_gemini_and_update_sheet (fun _ => nissanMentionReply)
          [mkRow bodyA]).updates).getD 0 []) companyInfoCol = "日産" ∧
    cell ((applyUpdates [mkRow bodyA]
        (analyze_with_gemini_and_update_sheet (fun _ => nissanMentionReply)
          [mkRow bodyA]).updates).getD 0 []) nissanMentionCol = "あり" ∧
    cell ((applyUpdates [mkRow bodyA]
        (analyze_with_gemini_and_update_sheet (fun _ => nissanMentionReply)
          [mkRow bodyA]).updates).getD 0 []) (nissanMentionCol + 1) = "ネガティブ" := by
  refine ⟨by decide, by decide, by decide⟩

/-- C8 (amended): the secondary fields come from the same single
classifier call as the primary ones — the prompt instructs the model to
answer "-" when `company_info` is the tracked entity, but the pipeline
stores whatever the reply contains, without enforcement; no separate
secondary classifier call exists (at most one call per analyzed
record). -/
theorem C8_amended_verbatim_copy :
    (∀ (body s c ci nm ns : String),
        (analyze_article_with_gemini
          (fun _ => GeminiReply.json
            [("sentiment", s), ("category", c), ("company_info", ci),
             ("nissan_mention", nm), ("nissan_sentiment", ns)]) body).1 =
          ⟨s, c, ci, nm, ns⟩) ∧
    (∀ (g : String → GeminiReply) (rows : List (List String)),
        (analyze_with_gemini_and_update_sheet g rows).calls.length ≤
          (analyze_with_gemini_and_update_sheet g rows).count) := by
  constructor
  · intro body s c ci nm ns
    rfl
  · intro g rows
    have := analyze_loop_calls_le g rows 0 0
    simpa using this

/-- Helper: the URL cell of a freshly built A-F row is the article URL. -/
theorem source_row_of_url (now : PyDateTime) (a : Article) (row : List String)
    (h : source_row_of now a = .ok row) : rowURL row = a.url := by
  unfold source_row_of at h
  cases hp : parse_relative_time now a.post_time_str with
  | error e => rw [hp] at h; cases h
  | ok o =>
    rw [hp] at h
    cases o with
    | some t => cases h; rfl
    | none => cases h; rfl

/-- Helper: the filtering loop only keeps articles whose URL is not yet in
the set, keeps each URL once, and records every kept URL in the set. -/
theorem filter_new_articles_spec (now : PyDateTime) :
    ∀ (arts : List Article) (s : List String) (rows : List (List String))
      (s2 : List String), filter_new_articles now arts s = .ok (rows, s2) →
      (∀ u, u ∈ s → u ∈ s2) ∧
      (∀ r ∈ rows, rowURL r ∉ s ∧ rowURL r ∈ s2) ∧
      (rows.map rowURL).Nodup := by
  intro arts
  induction arts with
  | nil =>
    intro s rows s2 h
    simp only [filter_new_articles] at h
    cases h
    exact ⟨fun u hu => hu, by simp, by simp⟩
  | cons a rest ih =>
    intro s rows s2 h
    simp only [filter_new_articles] at h
    by_cases hmem : a.url ∈ s
    · rw [if_pos hmem] at h
      exact ih s rows s2 h
    · rw [if_neg hmem] at h
      cases hsr : source_row_of now a with
      | error e => rw [hsr] at h; cases h
      | ok row0 =>
        rw [hsr] at h
        cases hrec : filter_new_articles now rest (a.url :: s) with
        | error e => rw [hrec] at h; cases h
        | ok p =>
          rw [hrec] at h
          cases h
          obtain ⟨g1, g2, g3⟩ := ih (a.url :: s) p.1 p.2 (by rw [hrec])
          have hurl : rowURL row0 = a.url := source_row_of_url now a row0 hsr
          refine ⟨?_, ?_, ?_⟩
          · intro u hu
            exact g1 u (List.mem_cons_of_mem _ hu)
          · intro r hr
            rcases List.mem_cons.mp hr with h0 | h0
            · subst h0
              exact ⟨hurl ▸ hmem, g1 (rowURL r) (hurl ▸ List.mem_cons_self _ _)⟩
            · obtain ⟨hn, hi⟩ := g2 r h0
              exact ⟨fun hc => hn (List.mem_cons_of_mem _ hc), hi⟩
          · simp only [List.map_cons, List.nodup_cons]
            refine ⟨?_, g3⟩
            intro hc
            rcases List.mem_map.mp hc with ⟨r, hr, hrr⟩
            have := (g2 r hr).1
            rw [hrr, hurl] at this
            exact this (List.mem_cons_self _ _)

/-- Helper: across the whole run, appended rows carry pairwise-distinct
URLs, none of them already in the initial set, and the set only grows. -/
theorem run_append_spec (now : PyDateTime) :
    ∀ (batches : List (List Article)) (s : List String),
      (∀ u, u ∈ s → u ∈ (run_append now batches s).2.1) ∧
      (∀ r ∈ (run_append now batches s).1,
        rowURL r ∉ s ∧ rowURL r ∈ (run_append now batches s).2.1) ∧
      ((run_append now batches s).1.map rowURL).Nodup := by
  intro batches
  induction batches with
  | nil =>
    intro s
    exact ⟨fun u hu => hu, by simp [run_append], by simp [run_append]⟩
  | cons b rest ih =>
    intro s
    simp only [run_append]
    cases hf : filter_new_articles now b s with
    | error e =>
      exact ⟨fun u hu => hu, by simp, by simp⟩
    | ok p =>
      obtain ⟨f1, f2, f3⟩ := filter_new_articles_spec now b s p.1 p.2 (by rw [hf])
      obtain ⟨r1, r2, r3⟩ := ih p.2
      refine ⟨?_, ?_, ?_⟩
      · intro u hu
        exact r1 u (f1 u hu)
      · intro r hr
        rcases List.mem_append.mp hr with h0 | h0
        · obtain ⟨hn, hi⟩ := f2 r h0
          exact ⟨hn, r1 _ hi⟩
        · obtain ⟨hn, hi⟩ := r2 r h0
          exact ⟨fun hc => hn (f1 _ hc), hi⟩
      · rw [List.map_append]
        apply List.Nodup.append f3 r3
        intro u hu1 hu2
        rcases List.mem_map.mp hu1 with ⟨r, hr, hrr⟩
        rcases List.mem_map.mp hu2 with ⟨q, hq, hqq⟩
        have hin : u ∈ p.2 := hrr ▸ (f2 r hr).2
        have hnot : u ∉ p.2 := hqq ▸ (r2 q hq).1
        exact hnot hin

/-- C1: over a full run (the URL set loaded once from column B, threaded
across every keyword batch), each URL is appended at most once — appended
rows carry pairwise-distinct URLs and none of them is already in the
loaded set; and loading a column that contains a URL twice is harmless:
the loaded set holds exactly the URLs of the column minus its header, once
each.  (The column list is unconstrained, so stores with duplicate rows
are covered, and every operation involved is total — nothing crashes.) -/
theorem C1_url_dedup (now : PyDateTime) (colB : List String)
    (batches : List (List Article)) :
    ((run_append now batches (load_existing_urls colB)).1.map rowURL).Nodup ∧
    (∀ r ∈ (run_append now batches (load_existing_urls colB)).1,
      rowURL r ∉ load_existing_urls colB) ∧
    ((load_existing_urls colB).Nodup ∧
      ∀ u, u ∈ load_existing_urls colB ↔ u ∈ colB.drop 1) := by
  obtain ⟨_, h2, h3⟩ := run_append_spec now batches (load_existing_urls colB)
  refine ⟨h3, fun r hr => (h2 r hr).1, List.nodup_dedup _, fun u => List.mem_dedup⟩

/-- Witness for C1: a store column holding one URL twice and a batch with
that URL plus a fresh one — the fresh URL, actually appended by the run,
was not among the loaded URLs. -/
theorem C1_url_dedup_witness :
    rowURL ["トヨタ", "https://news.yahoo.co.jp/articles/new1",
        "2026/10/12 09:27:00", "s", "t2", "TRUE"] ∉
      load_existing_urls
        ["URL", "https://news.yahoo.co.jp/articles/old1",
         "https://news.yahoo.co.jp/articles/old1"] :=
  (C1_url_dedup ⟨2026, 10, 12, 9, 30, 0⟩
      ["URL", "https://news.yahoo.co.jp/articles/old1",
       "https://news.yahoo.co.jp/articles/old1"]
      [[⟨"t1", "https://news.yahoo.co.jp/articles/old1", "s", "5分前", "トヨタ"⟩,
        ⟨"t2", "https://news.yahoo.co.jp/articles/new1", "s", "3分前", "トヨタ"⟩]]).2.1
    ["トヨタ", "https://news.yahoo.co.jp/articles/new1",
     "2026/10/12 09:27:00", "s", "t2", "TRUE"] (by decide)

/-- Helper: `getD` through a successful `get?`. -/
theorem getD_of_get? {α : Type} (l : List α) (j : Nat) (x d : α)
    (h : l.get? j = some x) : l.getD j d = x := by
  simp [List.getD_eq_getElem?_getD, ← List.get?_eq_getElem?, h]

/-- Helper: every detail fetch of the step-3 loop comes from a row that
passes the detail gate. -/
theorem detail_loop_fetch_sound (d : String → FetchOutcome)
    (c : String → List String) :
    ∀ (rows : List (List String)) (idx : Nat) (e : Nat × String),
      e ∈ (detail_loop d c rows idx).detailFetches →
      ∃ j row, rows.get? j = some row ∧ e.1 = idx + j + 2 ∧ detailGate row = true := by
  intro rows
  induction rows with
  | nil => intro idx e he; simp [detail_loop] at he
  | cons row rest ih =>
    intro idx e he
    simp only [detail_loop] at he
    by_cases hg : detailGate row
    · rw [if_pos hg] at he
      cases hid : extract_article_id (cell row urlCol).toList with
      | none =>
        rw [hid] at he
        obtain ⟨j, r, h1, h2, h3⟩ := ih (idx + 1) e he
        exact ⟨j + 1, r, by simpa using h1, by omega, h3⟩
      | some i =>
        rw [hid] at he
        cases hts : (get_article_details (d (cell row urlCol))).2.2 with
        | some t =>
          rw [hts] at he
          simp only [List.mem_singleton] at he
          exact ⟨0, row, rfl, by rw [he], hg⟩
        | none =>
          rw [hts] at he
          simp only [List.mem_cons] at he
          rcases he with h0 | h0
          · exact ⟨0, row, rfl, by rw [h0], hg⟩
          · obtain ⟨j, r, h1, h2, h3⟩ := ih (idx + 1) e h0
            exact ⟨j + 1, r, by simpa using h1, by omega, h3⟩
    · rw [if_neg hg] at he
      obtain ⟨j, r, h1, h2, h3⟩ := ih (idx + 1) e he
      exact ⟨j + 1, r, by simpa using h1, by omega, h3⟩

/-- Helper: the step-3 loop fetches comments for exactly the rows whose
details it fetches. -/
theorem detail_loop_comments_eq (d : String → FetchOutcome)
    (c : String → List String) :
    ∀ (rows : List (List String)) (idx : Nat),
      (detail_loop d c rows idx).commentFetches =
        (detail_loop d c rows idx).detailFetches := by
  intro rows
  induction rows with
  | nil => intro idx; rfl
  | cons row rest ih =>
    intro idx
    simp only [detail_loop]
    by_cases hg : detailGate row
    · rw [if_pos hg]
      cases hid : extract_article_id (cell row urlCol).toList with
      | none => exact ih (idx + 1)
      | some i =>
        cases hts : (get_article_details (d (cell row urlCol))).2.2 with
        | some t => rfl
        | none => simp only [List.cons.injEq, true_and]; exact ih (idx + 1)
    · rw [if_neg hg]
      exact ih (idx + 1)

/-- Helper: `getD` at another index through `set`. -/
theorem getD_set_ne (l : List String) (i j : Nat) (v dflt : String)
    (h : i ≠ j) : (l.set i v).getD j dflt = l.getD j dflt := by
  simp [List.getD_eq_getElem?_getD, List.getElem?_set_ne h]

/-! Fixtures for the detail-fetch claims. -/

/-- A flagged row whose body was already captured, with a fresh post
time. -/
def filledRow : List String :=
  ["kw", "https://news.yahoo.co.jp/articles/ab12", "2026/10/12 09:00:00", "src",
    "ttl", "TRUE", "取得済みの記事本文テキスト"] ++ List.replicate 10 ""

/-- Oracle: every article fetch fails fatally. -/
def fatalOracle : String → FetchOutcome := fun _ => .fatal

/-- Oracle: comment scraping finds nothing. -/
def noComments : String → List String := fun _ => []

/-- Oracle: article fetch succeeds with a body and no parsed timestamp
(so the `astimezone` `TypeError` is not triggered). -/
def detailNoTime : String → FetchOutcome :=
  fun _ => .ok (some "新しい本文") (fun _ => .notOk) "3" none

/-- Oracle: comment scraping finds one comment. -/
def oneComment : String → List String := fun _ => ["コメント1"]

/-- C4 counterexample: there is no 3-day comment-refresh window.  A record
whose body is captured and whose posted time lies 30 minutes before "now"
is pending per the spec rule (body filled AND within the trailing 3-day
window) but the code's gate is false — the loop performs no fetch at all
for it, so its comment count is never refreshed. -/
theorem C4_no_comment_refresh :
    spec_detailFetch_pending ⟨2026, 10, 12, 9, 30, 0⟩ "取得済みの記事本文テキスト"
      (some ⟨2026, 10, 12, 9, 0, 0⟩) = true ∧
    detailGate filledRow = false ∧
    (update_source_sheet_details fatalOracle noComments [filledRow]).detailFetches = [] ∧
    (update_source_sheet_details fatalOracle noComments [filledRow]).batch = [] := by
  refine ⟨by decide, by decide, by decide, by decide⟩

/-- C4 (amended): detail fetch is pending iff the analysis flag is set and
`body_p1` is empty or the fetch-failure sentinel; the posted timestamp
plays no role.  Every fetch performed by the loop comes from a row passing
that gate; a row with a captured (nonempty, non-sentinel) body is never
re-fetched; and the gate is invariant under arbitrary changes to both
timestamp columns. -/
theorem C4_amended_detail_gate (d : String → FetchOutcome)
    (c : String → List String) (rows : List (List String)) :
    (∀ e ∈ (update_source_sheet_details d c rows).detailFetches,
        detailGate (rows.getD (e.1 - 2) []) = true) ∧
    (∀ row : List String, cell row bodyP1Col ≠ "" → cell row bodyP1Col ≠ BODY_FAIL →
        detailGate row = false) ∧
    (∀ (row : List String) (a b : String),
        detailGate ((row.set 2 a).set 20 b) = detailGate row) := by
  refine ⟨?_, ?_, ?_⟩
  · intro e he
    obtain ⟨j, row, h1, h2, h3⟩ := detail_loop_fetch_sound d c rows 0 e he
    have hj : e.1 - 2 = j := by omega
    rw [hj, getD_of_get? rows j row [] h1]
    exact h3
  · intro row h1 h2
    unfold detailGate
    have e1 : (cell row bodyP1Col == "") = false := by
      simpa using h1
    have e2 : (cell row bodyP1Col == BODY_FAIL) = false := by
      simpa using h2
    rw [e1, e2]
    simp
  · intro row a b
    unfold detailGate cell flagCol bodyP1Col
    rw [List.length_set, List.length_set]
    rw [getD_set_ne (row.set 2 a) 20 5 b "" (by omega),
      getD_set_ne row 2 5 a "" (by omega),
      getD_set_ne (row.set 2 a) 20 6 b "" (by omega),
      getD_set_ne row 2 6 a "" (by omega)]

/-- Witness for C4 (amended): the captured-body row is gated out. -/
theorem C4_amended_detail_gate_witness : detailGate filledRow = false :=
  (C4_amended_detail_gate fatalOracle noComments [filledRow]).2.1 filledRow
    (by decide) (by decide)

/-- A flagged, body-less row with a low comment count, another company and
neutral sentiment. -/
def c6Row : List String :=
  ["kw", "https://news.yahoo.co.jp/articles/ab12", "t", "src", "ttl", "TRUE"] ++
    List.replicate 10 "" ++ ["Neutral", "カテゴリ", "OtherCo", "3", "-"]

/-- C6 counterexample: comment collection is not governed by the spec's
threshold/entity/sentiment rule.  A record satisfying neither disjunct
(comment count 3, company "OtherCo", sentiment "Neutral", not yet
collected) still gets its comments fetched, because the code fetches
comments for every record passing the detail-fetch gate. -/
theorem C6_comment_fetch_unconditional :
    spec_deepCommentCollect_pending false 3 "OtherCo" "Neutral" = false ∧
    cell c6Row commentCountCol = "3" ∧
    cell c6Row companyInfoCol = "OtherCo" ∧
    cell c6Row sentimentCol = "Neutral" ∧
    (update_source_sheet_details detailNoTime oneComment [c6Row]).commentFetches =
      [(2, "https://news.yahoo.co.jp/articles/ab12")] := by
  refine ⟨by decide, by decide, by decide, by decide, by decide⟩

/-- C6 (amended): deep comment collection runs for exactly the records
that undergo a detail fetch — the gate is the detail-fetch gate (flag set,
body empty or failed, article id extractable), and comment count,
company and sentiment play no role; every comment fetch comes from a row
passing that gate. -/
theorem C6_amended_comments_with_detail (d : String → FetchOutcome)
    (c : String → List String) (rows : List (List String)) :
    (update_source_sheet_details d c rows).commentFetches =
      (update_source_sheet_details d c rows).detailFetches ∧
    (∀ e ∈ (update_source_sheet_details d c rows).commentFetches,
        detailGate (rows.getD (e.1 - 2) []) = true) := by
  refine ⟨detail_loop_comments_eq d c rows 0, ?_⟩
  intro e he
  rw [show (update_source_sheet_details d c rows).commentFetches =
      (update_source_sheet_details d c rows).detailFetches from
    detail_loop_comments_eq d c rows 0] at he
  obtain ⟨j, row, h1, h2, h3⟩ := detail_loop_fetch_sound d c rows 0 e he
  have hj : e.1 - 2 = j := by omega
  rw [hj, getD_of_get? rows j row [] h1]
  exact h3

/-- Witness for C6 (amended) at a concrete fetched row. -/
theorem C6_amended_comments_with_detail_witness :
    detailGate (([c6Row] : List (List String)).getD
      (((2 : Nat), "https://news.yahoo.co.jp/articles/ab12").1 - 2) []) = true :=
  (C6_amended_comments_with_detail detailNoTime oneComment [c6Row]).2
    (2, "https://news.yahoo.co.jp/articles/ab12") (by decide)

end YahooNews
